import Mathlib

/-!
Shallow embedding of `src/systemd-timer-automation-tool.py`, a command-line
tool that runs user scripts and manages a user-level systemd service/timer
pair.  Python functions become Lean functions; side effects (prints, process
spawns) become an explicit event trace; the filesystem, the search path
(`shutil.which`), `/etc/os-release` and `$EDITOR` become explicit inputs;
`sys.exit` becomes an explicit exit code.  Machine strings are Lean `String`
(a list of characters); Python string ordering and lowercasing are modelled
on the code points (`Char.toNat`), which agrees with Python on the ASCII
strings this tool manipulates.
-/

namespace SystemdTimerTool

/-- Model of Python `str.lower` on one character: ASCII uppercase letters map
to lowercase, everything else is unchanged. -/
def lowerChar (c : Char) : Char :=
  if 65 ≤ c.toNat ∧ c.toNat ≤ 90 then Char.ofNat (c.toNat + 32) else c

/-- Model of Python `str.lower()` (`content.lower()` in `detect_os`). -/
def lowerStr (s : String) : String :=
  ⟨s.data.map lowerChar⟩

/-- Model of Python `needle in haystack`: substring containment. -/
def containsSub (haystack needle : String) : Bool :=
  decide (needle.data <:+: haystack.data)

/-- Code-point lexicographic comparison of character lists: the order Python
`sorted` uses on `str`. -/
def charListLe : List Char → List Char → Bool
  | [], _ => true
  | _ :: _, [] => false
  | a :: as, b :: bs =>
    if a.toNat < b.toNat then true
    else if b.toNat < a.toNat then false
    else charListLe as bs

/-- Python `<=` on strings. -/
def strle (a b : String) : Bool :=
  charListLe a.data b.data

/-- `strle` as a relation, for Mathlib's sorting lemmas. -/
def strleP (a b : String) : Prop :=
  strle a b = true

instance : DecidableRel strleP :=
  fun a b => inferInstanceAs (Decidable (strle a b = true))

/-- Model of Python `sorted` on a list of strings (line 102 of the source).
`sorted` is a comparison sort over the code-point order; we use insertion
sort, which computes the same sorted list. -/
def sortStrings (l : List String) : List String :=
  List.insertionSort strleP l

/-- Python truthiness of an optional-string attribute of the argparse
namespace: `None` and the empty string are falsy. -/
def truthy : Option String → Bool
  | none => false
  | some s => s != ""

/-- Python `str(x)` of an optional-string value, as an f-string renders it:
`None` prints as the text `None`. -/
def pyStr : Option String → String
  | none => "None"
  | some s => s

/-- Model of `os.path.join(a, b)` for the relative names this tool joins. -/
def joinPath (a b : String) : String :=
  a ++ "/" ++ b

/-- One observable action of the program: a line printed to standard output,
a process spawned from an argv list (`subprocess.run([...])`), or a command
string given to the shell (`subprocess.run(cmd, shell=True)`). -/
inductive Event where
  | print (line : String)
  | spawnArgv (argv : List String)
  | spawnShell (cmd : String)
deriving DecidableEq

/-- The filesystem view the Runner consults: `os.path.isdir`,
`os.path.isfile`, the owner-execute permission bit (`st_mode & S_IXUSR`),
and `os.listdir`. -/
structure FS where
  isDir : String → Bool
  isFile : String → Bool
  execOwner : String → Bool
  listdir : String → List String

/-- `is_executable_file` (source lines 87-92): a regular file whose
owner-execute bit is set. -/
def is_executable_file (fs : FS) (path : String) : Bool :=
  if !(fs.isFile path) then false else fs.execOwner path

/-- The argparse namespace produced by `main`'s parser (source lines
330-376).  Note that `--run` (short `-f`) is declared with `dest="run_arg"` and
`--run-arg` also stores to `run_arg`: the two flags share one attribute. -/
structure Args where
  os : String := "auto"
  run_arg : Option String := none
  dry_run_arg : Option String := none
  verbose : Bool := false
  dependencies : Option String := none
  configs : Option String := none
  install_systemd_timer : Option String := none
  Persistent : Option String := none
  OnCalendar : Option String := none
  Description : Option String := none
  status : Bool := false
  enable_and_start : Bool := false
  disable_and_stop : Bool := false
  logs : Bool := false

/-- Which optional command-line flags were supplied on an invocation, for
the flags that could take part in argparse mutual-exclusion checks. -/
structure SuppliedFlags where
  run : Bool := false
  dry_run : Bool := false
  status : Bool := false
  enable_and_start : Bool := false
  disable_and_stop : Bool := false
  logs : Bool := false

/-- The parser's rejection of an invocation by mutually exclusive argument
grouping.  The source's only `add_mutually_exclusive_group` (lines 336-340)
holds `--run` (short `-f`) and `--dry-run` (short `-n`); the four intent flags (lines 367-374)
are plain `store_true` arguments outside any group, so argparse rejects an
invocation exactly when both `--run` and `--dry-run` are supplied. -/
def parserRejects (s : SuppliedFlags) : Bool :=
  s.run && s.dry_run

/-- `detect_os` (source lines 65-84): an explicit `arch`/`ubuntu` selection
is returned unchanged; under `auto` the content of `/etc/os-release`
(`none` when the file is absent, raising `FileNotFoundError` in the source)
is lowercased and searched for `"arch linux"` and then `"ubuntu"`. -/
def detect_os (selected_os : String) (os_release : Option String) : String :=
  if selected_os ∈ (["arch", "ubuntu"] : List String) then selected_os
  else
    match os_release with
    | none => "unknown"
    | some c =>
      let content := lowerStr c
      if containsSub content "arch linux" then "arch"
      else if containsSub content "ubuntu" then "ubuntu"
      else "unknown"

/-- The per-entry body of the directory loop of `run_commands` (source lines
102-111): an entry that is a regular file and executable is announced
(verbosely), then either logged as a dry-run intent or spawned directly;
any other entry produces nothing. -/
def dirEntryStep (fs : FS) (verbose : Bool) (run_arg : String) (is_dry_run : Bool)
    (item : String) : List Event :=
  let full_path := joinPath run_arg item
  if fs.isFile full_path && is_executable_file fs full_path then
    (if verbose then [Event.print ("Found executable script: " ++ full_path)] else []) ++
    (if is_dry_run then [Event.print ("[DRYRUN] Would run: '" ++ full_path ++ "'")]
     else [Event.print ("Running: '" ++ full_path ++ "'"), Event.spawnArgv [full_path]])
  else []

/-- `run_commands` (source lines 95-133): classify the target as directory,
executable file, non-executable file, or opaque command, and run or dry-run
accordingly. -/
def run_commands (fs : FS) (verbose : Bool) (run_arg : String) (is_dry_run : Bool) :
    List Event :=
  if fs.isDir run_arg then
    (sortStrings (fs.listdir run_arg)).flatMap (dirEntryStep fs verbose run_arg is_dry_run)
  else if fs.isFile run_arg then
    if is_executable_file fs run_arg then
      if is_dry_run then [Event.print ("[DRYRUN] Would run file: '" ++ run_arg ++ "'")]
      else [Event.print ("Running file: '" ++ run_arg ++ "'"), Event.spawnArgv [run_arg]]
    else
      (if verbose then
        [Event.print ("'" ++ run_arg ++
          "' is a file but probably not executable. Attempting to run in shell.")]
       else []) ++
      (if is_dry_run then [Event.print ("[DRYRUN] Would run via shell: '" ++ run_arg ++ "'")]
       else [Event.spawnArgv ["bash", run_arg]])
  else
    if is_dry_run then [Event.print ("[DRYRUN] Would run command: " ++ run_arg)]
    else [Event.spawnShell run_arg]

/-- The fixed list of required external programs (source lines 141 and 160). -/
def commands_to_check : List String :=
  ["systemctl", "bash", "nano"]

/-- `check_dependencies` (source lines 136-149). -/
def check_dependencies (which : String → Option String) (verbose : Bool) : List Event :=
  (commands_to_check.flatMap fun cmd =>
    match which cmd with
    | some cmd_path => [Event.print ("[OK]   " ++ cmd ++ " found at " ++ cmd_path)]
    | none => [Event.print ("[MISS] " ++ cmd ++ " NOT found")]) ++
  (if verbose then [Event.print "Dependency check finished."] else [])

/-- The subset of `commands_to_check` not found on the search path (source
lines 159-162). -/
def missing_commands (which : String → Option String) : List String :=
  commands_to_check.filter fun cmd => (which cmd).isNone

/-- `suggest_install_script` (source lines 152-180).  Note that it calls
`detect_os("auto")`: the user's `--os` selection is not passed in. -/
def suggest_install_script (os_release : Option String) (which : String → Option String)
    (verbose : Bool) : List Event :=
  let user_os := detect_os "auto" os_release
  let missing_cmds := missing_commands which
  if missing_cmds = [] then
    [Event.print "All essential commands appear to be installed."]
  else
    let pkgmgr :=
      if user_os = "arch" then "sudo pacman -S"
      else if user_os = "ubuntu" then "sudo apt-get install"
      else "<your_package_manager_install_command>"
    [Event.print "Suggested installation commands (based on detected OS):"] ++
    (missing_cmds.map fun cmd => Event.print ("  " ++ pkgmgr ++ " " ++ cmd)) ++
    (if verbose then [Event.print "Suggested install script generation completed."] else [])

/-- `~/.config/systemd/user` (source lines 188-192 and 266-267). -/
def systemd_user_dir (home : String) : String :=
  joinPath (joinPath (joinPath home ".config") "systemd") "user"

/-- Path of the generated service file. -/
def service_file_path (home : String) : String :=
  joinPath (systemd_user_dir home) "daily_by_hostname.service"

/-- Path of the generated timer file. -/
def timer_file_path (home : String) : String :=
  joinPath (systemd_user_dir home) "daily_by_hostname.timer"

/-- Python `X if X else D` on an optional-string flag (source lines
196-197): the value when truthy, the default otherwise. -/
def orDefault (o : Option String) (d : String) : String :=
  if truthy o then o.getD "" else d

/-- The `description` local of `create_service_and_timer` (source lines
195-196). -/
def description_of (script_path : String) (args : Args) : String :=
  orDefault args.Description ("Daily User Run of " ++ script_path)

/-- The `on_calendar` local of `create_service_and_timer` (source line 197). -/
def on_calendar_of (args : Args) : String :=
  orDefault args.OnCalendar "*-*-* 14:00:00"

/-- The `persistent_value` local of `create_service_and_timer` (source lines
215-217): `None` means `"true"`, and any value other than `"true"`/`"false"`
is coerced to `"true"`. -/
def persistent_value (p : Option String) : String :=
  let v := match p with | none => "true" | some s => s
  if v ∈ (["true", "false"] : List String) then v else "true"

/-- The `service_content` list of lines (source lines 203-213). -/
def service_content (script_path description run_arg_val : String) : List String :=
  ["[Unit]",
   "Description=" ++ description,
   "After=network.target",
   "",
   "[Service]",
   "Type=oneshot",
   "ExecStart=/usr/bin/env python3 " ++ script_path ++ " --run \"" ++ run_arg_val ++ "\"",
   "",
   "# End of service file\n"]

/-- The `timer_content` list of lines (source lines 218-230). -/
def timer_content (description on_calendar pv : String) : List String :=
  ["[Unit]",
   "Description=Timer for: " ++ description,
   "",
   "[Timer]",
   "OnCalendar=" ++ on_calendar,
   "Persistent=" ++ pv,
   "",
   "[Install]",
   "WantedBy=default.target",
   "",
   "# End of timer file\n"]

/-- The service lines `create_service_and_timer` builds for `args`. -/
def service_lines (script_path : String) (args : Args) : List String :=
  service_content script_path (description_of script_path args) (pyStr args.run_arg)

/-- The timer lines `create_service_and_timer` builds for `args`. -/
def timer_lines (script_path : String) (args : Args) : List String :=
  timer_content (description_of script_path args) (on_calendar_of args)
    (persistent_value args.Persistent)

/-- `create_service_and_timer` (source lines 183-242): write the two unit
files (joined with newlines) and print the two paths and the follow-up
commands.  The file store maps a path to its content when the file exists. -/
def create_service_and_timer (home script_path : String) (args : Args)
    (files : String → Option String) : List Event × (String → Option String) :=
  let service_file := service_file_path home
  let timer_file := timer_file_path home
  let sc := String.intercalate "\n" (service_lines script_path args)
  let tc := String.intercalate "\n" (timer_lines script_path args)
  let files1 : String → Option String := fun p => if p = service_file then some sc else files p
  let files2 : String → Option String := fun p => if p = timer_file then some tc else files1 p
  ([Event.print ("Created service file: " ++ service_file),
    Event.print ("Created timer file:   " ++ timer_file),
    Event.print "You can now enable and start the timer with:",
    Event.print "  $ systemctl --user enable daily_by_hostname.timer",
    Event.print "  $ systemctl --user start daily_by_hostname.timer"],
   files2)

/-- `edit_file_in_editor` (source lines 245-259): `$EDITOR`, else the first
of `nano`, `vi` on the search path, else a guidance message. -/
def edit_file_in_editor (editorVar : String) (which : String → Option String)
    (file_path : String) : List Event :=
  let editor :=
    if editorVar != "" then editorVar
    else if (which "nano").isSome then "nano"
    else if (which "vi").isSome then "vi"
    else ""
  if editor = "" then [Event.print "No suitable editor found! Please set $EDITOR."]
  else [Event.spawnArgv [editor, file_path]]

/-- `handle_configs` (source lines 262-299).  The result is the event trace,
the file store after the call, and `some code` when the call ran
`sys.exit(code)` (the only such exit is `sys.exit(1)` for `create` without a
truthy `run_arg`, line 278). -/
def handle_configs (home script_path editorVar : String) (which : String → Option String)
    (args : Args) (files : String → Option String) :
    List Event × (String → Option String) × Option Nat :=
  let service_file := service_file_path home
  let timer_file := timer_file_path home
  if args.configs = some "paths" then
    ([Event.print service_file, Event.print timer_file], files, none)
  else if args.configs = some "create" then
    if !(truthy args.run_arg) then
      ([Event.print "Error: --configs create requires --run-arg"], files, some 1)
    else
      let r := create_service_and_timer home script_path args files
      (r.1, r.2, none)
  else if args.configs = some "edit-service" then
    if (files service_file).isNone then
      ([Event.print ("Service file not found: " ++ service_file)], files, none)
    else
      (edit_file_in_editor editorVar which service_file, files, none)
  else if args.configs = some "edit-timer" then
    if (files timer_file).isNone then
      ([Event.print ("Timer file not found: " ++ timer_file)], files, none)
    else
      (edit_file_in_editor editorVar which timer_file, files, none)
  else if args.configs = some "delete" then
    let ev :=
      (if (files service_file).isSome then
        [Event.print ("Deleted service file: " ++ service_file)] else []) ++
      (if (files timer_file).isSome then
        [Event.print ("Deleted timer file: " ++ timer_file)] else [])
    (ev, fun p => if p = service_file ∨ p = timer_file then none else files p, none)
  else
    ([], files, none)

/-- `handle_systemd_install` (source lines 302-308): print-only guidance. -/
def handle_systemd_install (args : Args) : List Event :=
  [Event.print ("You requested to install a systemd timer: " ++
     pyStr args.install_systemd_timer),
   Event.print "But the recommended way is to run: --configs create, then enable and start."]

/-- The `systemctl --user status` invocation (source line 317). -/
def status_cmd : List String :=
  ["systemctl", "--user", "status", "daily_by_hostname.timer"]

/-- The `systemctl --user enable --now` invocation (source line 319). -/
def enable_cmd : List String :=
  ["systemctl", "--user", "enable", "--now", "daily_by_hostname.timer"]

/-- The `systemctl --user disable --now` invocation (source line 321). -/
def disable_cmd : List String :=
  ["systemctl", "--user", "disable", "--now", "daily_by_hostname.timer"]

/-- The `journalctl` invocation (source line 323). -/
def logs_cmd : List String :=
  ["journalctl", "--user-unit", "daily_by_hostname.service", "--since", "today"]

/-- `handle_systemd_timer_actions` (source lines 311-326): pick at most one
control command by the if/elif priority, echo it, and run it. -/
def handle_systemd_timer_actions (args : Args) : List Event :=
  let user_cmd : Option (List String) :=
    if args.status then some status_cmd
    else if args.enable_and_start then some enable_cmd
    else if args.disable_and_stop then some disable_cmd
    else if args.logs then some logs_cmd
    else none
  match user_cmd with
  | some cmd => [Event.print ("Running: " ++ String.intercalate " " cmd), Event.spawnArgv cmd]
  | none => []

/-- Everything `main` reads from outside the parsed arguments. -/
structure Env where
  os_release : Option String
  which : String → Option String
  editorVar : String
  home : String
  script_path : String
  runFS : FS
  files : String → Option String

/-- The top-level branches of `main`'s dispatch chain (source lines 384-414). -/
inductive Branch where
  | depsCheck
  | depsScript
  | configsAction
  | installTimer
  | timerActions
  | runReal
  | runDry
  | noop
deriving DecidableEq

/-- Which branch `main`'s chain selects: first satisfied condition wins. -/
def dispatch (args : Args) : Branch :=
  if args.dependencies = some "check" then Branch.depsCheck
  else if args.dependencies = some "script" then Branch.depsScript
  else if truthy args.configs then Branch.configsAction
  else if truthy args.install_systemd_timer then Branch.installTimer
  else if args.status || args.enable_and_start || args.disable_and_stop || args.logs then
    Branch.timerActions
  else if truthy args.run_arg then Branch.runReal
  else if truthy args.dry_run_arg then Branch.runDry
  else Branch.noop

/-- The verbose OS line printed before dispatch (source lines 379-381). -/
def verbosePre (env : Env) (args : Args) : List Event :=
  if args.verbose then
    [Event.print ("Detected/Selected OS: " ++ detect_os args.os env.os_release)]
  else []

/-- The trace, file store and exit code of one branch, viewed through the
`Branch` tag (each source branch ends in `sys.exit(0)` or falls off the end
of `main`, which exits 0). -/
def branchRun (env : Env) (args : Args) : Branch → List Event × (String → Option String) × Nat
  | Branch.depsCheck => (check_dependencies env.which args.verbose, env.files, 0)
  | Branch.depsScript =>
      (suggest_install_script env.os_release env.which args.verbose, env.files, 0)
  | Branch.configsAction =>
      let r := handle_configs env.home env.script_path env.editorVar env.which args env.files
      (r.1, r.2.1, r.2.2.getD 0)
  | Branch.installTimer => (handle_systemd_install args, env.files, 0)
  | Branch.timerActions => (handle_systemd_timer_actions args, env.files, 0)
  | Branch.runReal =>
      (run_commands env.runFS args.verbose (args.run_arg.getD "") false, env.files, 0)
  | Branch.runDry =>
      (run_commands env.runFS args.verbose (args.dry_run_arg.getD "") true, env.files, 0)
  | Branch.noop =>
      ((if args.verbose then
          [Event.print "No run or dry-run argument provided. Doing nothing."] else []),
       env.files, 0)

/-- `main` after argument parsing (source lines 376-414): the if/elif chain,
transcribed directly.  Result: full event trace, final file store, exit
code. -/
def main_run (env : Env) (args : Args) : List Event × (String → Option String) × Nat :=
  if args.dependencies = some "check" then
    (verbosePre env args ++ check_dependencies env.which args.verbose, env.files, 0)
  else if args.dependencies = some "script" then
    (verbosePre env args ++ suggest_install_script env.os_release env.which args.verbose,
     env.files, 0)
  else if truthy args.configs then
    let r := handle_configs env.home env.script_path env.editorVar env.which args env.files
    (verbosePre env args ++ r.1, r.2.1, r.2.2.getD 0)
  else if truthy args.install_systemd_timer then
    (verbosePre env args ++ handle_systemd_install args, env.files, 0)
  else if args.status || args.enable_and_start || args.disable_and_stop || args.logs then
    (verbosePre env args ++ handle_systemd_timer_actions args, env.files, 0)
  else if truthy args.run_arg then
    (verbosePre env args ++ run_commands env.runFS args.verbose (args.run_arg.getD "") false,
     env.files, 0)
  else if truthy args.dry_run_arg then
    (verbosePre env args ++ run_commands env.runFS args.verbose (args.dry_run_arg.getD "") true,
     env.files, 0)
  else
    (verbosePre env args ++
      (if args.verbose then
        [Event.print "No run or dry-run argument provided. Doing nothing."] else []),
     env.files, 0)

/-- The argv lists of the processes a trace spawns directly. -/
def spawnedArgvs (tr : List Event) : List (List String) :=
  tr.filterMap fun e =>
    match e with
    | Event.spawnArgv l => some l
    | _ => none

/-- Whether a trace spawns any process (argv or shell). -/
def hasSpawn (tr : List Event) : Bool :=
  tr.any fun e =>
    match e with
    | Event.print _ => false
    | _ => true

/-- An invocation supplies some branch of higher dispatch priority than
run/dry-run: dependencies, configs, install-systemd-timer, or one of the
four scheduler intents. -/
def higherPriority (args : Args) : Prop :=
  args.dependencies = some "check" ∨ args.dependencies = some "script" ∨
  truthy args.configs = true ∨ truthy args.install_systemd_timer = true ∨
  (args.status || args.enable_and_start || args.disable_and_stop || args.logs) = true

/-! Concrete inputs used by the witness theorems. -/

/-- A search path resolving every program. -/
def whichAll : String → Option String :=
  fun c => some ("/usr/bin/" ++ c)

/-- A search path resolving no program. -/
def whichNone : String → Option String :=
  fun _ => none

/-- An empty filesystem view. -/
def fsEmpty : FS :=
  { isDir := fun _ => false, isFile := fun _ => false,
    execOwner := fun _ => false, listdir := fun _ => [] }

/-- A filesystem with a directory `/d` holding an executable file `a`, a
non-executable file `b` and a sub-directory `c`, listed out of order. -/
def fsDirW : FS :=
  { isDir := fun p => p == "/d" || p == "/d/c",
    isFile := fun p => p == "/d/a" || p == "/d/b",
    execOwner := fun p => p == "/d/a",
    listdir := fun p => if p == "/d" then ["b", "a", "c"] else [] }

/-- A baseline environment for witnesses. -/
def envBase : Env :=
  { os_release := none, which := whichNone, editorVar := "", home := "/home/u",
    script_path := "/opt/tool.py", runFS := fsEmpty, files := fun _ => none }

/-- `envBase` with every dependency resolvable. -/
def envAllDeps : Env :=
  { envBase with which := whichAll }

/-- `envBase` with the directory filesystem. -/
def envDir : Env :=
  { envBase with runFS := fsDirW }

/-- Witness arguments: `--dependencies check --run /tmp/x`. -/
def argsDepsRun : Args :=
  { dependencies := some "check", run_arg := some "/tmp/x" }

/-- Witness arguments: `--configs create` without a run-arg. -/
def argsCreateNoArg : Args :=
  { configs := some "create" }

/-- Witness arguments: `--configs create --run-arg ""`. -/
def argsCreateEmptyArg : Args :=
  { configs := some "create", run_arg := some "" }

/-- Witness arguments: `--configs create --run-arg /tmp/x --OnCalendar
09:00:00 --Persistent false`. -/
def argsCreateFull : Args :=
  { configs := some "create", run_arg := some "/tmp/x",
    OnCalendar := some "09:00:00", Persistent := some "false" }

/-- Witness arguments: `--dependencies script`. -/
def argsDepsScript : Args :=
  { dependencies := some "script" }

/-- Witness arguments: `--enable_and_start --logs` (two intents at once). -/
def argsEnableLogs : Args :=
  { enable_and_start := true, logs := true }

/-- Witness supplied-flag set: `--status --logs`, neither run flag. -/
def flagsStatusLogs : SuppliedFlags :=
  { status := true, logs := true }

/-- Witness arguments matching `flagsStatusLogs`. -/
def argsStatusLogs : Args :=
  { status := true, logs := true }

/-- An `/etc/os-release` content carrying both distribution markers. -/
def osReleaseBoth : String :=
  "NAME=\"Arch Linux\"\nID_LIKE=ubuntu\n"

/-! Order properties of the code-point comparison, feeding Mathlib's sorting
lemmas. -/

theorem charListLe_trans (a : List Char) :
    ∀ b c, charListLe a b = true → charListLe b c = true → charListLe a c = true := by
  induction a with
  | nil => intro b c _ _; rfl
  | cons x xs ih =>
    intro b c h1 h2
    cases b with
    | nil => simp [charListLe] at h1
    | cons y ys =>
      cases c with
      | nil => simp [charListLe] at h2
      | cons z zs =>
        simp only [charListLe] at h1 h2 ⊢
        by_cases hxy : x.toNat < y.toNat
        · by_cases hyz : y.toNat < z.toNat
          · rw [if_pos (by omega)]
          · by_cases hzy : z.toNat < y.toNat
            · simp [hyz, hzy] at h2
            · rw [if_pos (by omega)]
        · by_cases hyx : y.toNat < x.toNat
          · simp [hxy, hyx] at h1
          · by_cases hyz : y.toNat < z.toNat
            · rw [if_pos (by omega)]
            · by_cases hzy : z.toNat < y.toNat
              · simp [hyz, hzy] at h2
              · rw [if_neg (by omega), if_neg (by omega)]
                simp [hxy, hyx] at h1
                simp [hyz, hzy] at h2
                exact ih ys zs h1 h2

theorem charListLe_total (a : List Char) :
    ∀ b, charListLe a b = true ∨ charListLe b a = true := by
  induction a with
  | nil => intro b; left; rfl
  | cons x xs ih =>
    intro b
    cases b with
    | nil => right; rfl
    | cons y ys =>
      simp only [charListLe]
      by_cases hxy : x.toNat < y.toNat
      · left; rw [if_pos hxy]
      · by_cases hyx : y.toNat < x.toNat
        · right; rw [if_pos hyx]
        · rcases ih ys with h | h
          · left; rw [if_neg hxy, if_neg hyx]; exact h
          · right; rw [if_neg hyx, if_neg hxy]; exact h

theorem charListLe_antisymm (a : List Char) :
    ∀ b, charListLe a b = true → charListLe b a = true → a = b := by
  induction a with
  | nil =>
    intro b _ h2
    cases b with
    | nil => rfl
    | cons y ys => simp [charListLe] at h2
  | cons x xs ih =>
    intro b h1 h2
    cases b with
    | nil => simp [charListLe] at h1
    | cons y ys =>
      simp only [charListLe] at h1 h2
      by_cases hxy : x.toNat < y.toNat
      · simp [hxy, Nat.lt_asymm hxy] at h2
      · by_cases hyx : y.toNat < x.toNat
        · simp [hxy, hyx] at h1
        · have hx : x = y := by
            have hn : x.toNat = y.toNat := by omega
            have hc := congrArg Char.ofNat hn
            rwa [Char.ofNat_toNat, Char.ofNat_toNat] at hc
          simp only [if_neg hxy, if_neg hyx] at h1
          simp only [if_neg hyx, if_neg hxy] at h2
          rw [hx, ih ys h1 h2]

instance : IsTrans String strleP :=
  ⟨fun a b c h1 h2 => charListLe_trans a.data b.data c.data h1 h2⟩

instance : IsTotal String strleP :=
  ⟨fun a b => charListLe_total a.data b.data⟩

instance : IsAntisymm String strleP :=
  ⟨fun a b h1 h2 => String.ext (charListLe_antisymm a.data b.data h1 h2)⟩

theorem sortStrings_sorted (l : List String) : List.Sorted strleP (sortStrings l) :=
  List.sorted_insertionSort strleP l

theorem sortStrings_perm (l : List String) : (sortStrings l).Perm l :=
  List.perm_insertionSort strleP l

theorem sortStrings_eq_of_perm {l l' : List String} (h : l.Perm l') :
    sortStrings l = sortStrings l' :=
  List.eq_of_perm_of_sorted ((sortStrings_perm l).trans (h.trans (sortStrings_perm l').symm))
    (sortStrings_sorted l) (sortStrings_sorted l')

/-! Trace helpers. -/

theorem spawnedArgvs_append (t1 t2 : List Event) :
    spawnedArgvs (t1 ++ t2) = spawnedArgvs t1 ++ spawnedArgvs t2 :=
  List.filterMap_append t1 t2 _

theorem hasSpawn_append (t1 t2 : List Event) :
    hasSpawn (t1 ++ t2) = (hasSpawn t1 || hasSpawn t2) :=
  List.any_append

theorem spawnedArgvs_flatMap {α : Type} (l : List α) (f : α → List Event) :
    spawnedArgvs (l.flatMap f) = l.flatMap fun x => spawnedArgvs (f x) := by
  induction l with
  | nil => rfl
  | cons x xs ih => simp only [List.flatMap_cons, spawnedArgvs_append, ih]

theorem hasSpawn_flatMap {α : Type} (l : List α) (f : α → List Event) :
    hasSpawn (l.flatMap f) = l.any fun x => hasSpawn (f x) := by
  induction l with
  | nil => rfl
  | cons x xs ih => simp only [List.flatMap_cons, hasSpawn_append, ih, List.any_cons]

theorem flatMap_guard {α β : Type} (l : List α) (p : α → Bool) (g : α → β) :
    (l.flatMap fun x => if p x then [g x] else []) = (l.filter p).map g := by
  induction l with
  | nil => rfl
  | cons x xs ih =>
    by_cases h : p x = true <;>
      simp [List.flatMap_cons, List.filter_cons, h, ih]

theorem spawnedArgvs_dirEntryStep (fs : FS) (v : Bool) (d item : String) :
    spawnedArgvs (dirEntryStep fs v d false item) =
      if fs.isFile (joinPath d item) && is_executable_file fs (joinPath d item)
      then [[joinPath d item]] else [] := by
  simp only [dirEntryStep]
  split
  · cases v <;> simp [spawnedArgvs]
  · rfl

theorem hasSpawn_dirEntryStep_dry (fs : FS) (v : Bool) (d item : String) :
    hasSpawn (dirEntryStep fs v d true item) = false := by
  simp only [dirEntryStep]
  split
  · cases v <;> simp [hasSpawn]
  · rfl

theorem spawnedArgvs_run_dir (fs : FS) (v : Bool) (d : String) (h : fs.isDir d = true) :
    spawnedArgvs (run_commands fs v d false) =
      ((sortStrings (fs.listdir d)).filter
        (fun i => fs.isFile (joinPath d i) && is_executable_file fs (joinPath d i))).map
        (fun i => [joinPath d i]) := by
  simp only [run_commands, h, if_true]
  rw [spawnedArgvs_flatMap, ← flatMap_guard]
  congr 1
  funext item
  exact spawnedArgvs_dirEntryStep fs v d item

theorem run_commands_dry_no_spawn (fs : FS) (v : Bool) (t : String) :
    hasSpawn (run_commands fs v t true) = false := by
  simp only [run_commands]
  split
  · rw [hasSpawn_flatMap]
    simp [hasSpawn_dirEntryStep_dry]
  · split
    · split
      · rfl
      · rw [hasSpawn_append]
        cases v <;> simp [hasSpawn]
    · rfl

theorem handle_configs_exit_cases (home sp ev : String) (which : String → Option String)
    (args : Args) (files : String → Option String) :
    (handle_configs home sp ev which args files).2.2 ≠ none →
    args.configs = some "create" ∧ truthy args.run_arg = false := by
  intro h
  simp only [handle_configs] at h
  split at h
  · exact absurd rfl h
  · split at h
    · rename_i hc
      split at h
      · rename_i hr
        exact ⟨hc, by revert hr; cases truthy args.run_arg <;> simp⟩
      · exact absurd rfl h
    · split at h
      · split at h <;> exact absurd rfl h
      · split at h
        · split at h <;> exact absurd rfl h
        · split at h <;> exact absurd rfl h

theorem main_run_eq_branch (env : Env) (args : Args) :
    main_run env args =
      (verbosePre env args ++ (branchRun env args (dispatch args)).1,
       (branchRun env args (dispatch args)).2) := by
  by_cases h1 : args.dependencies = some "check"
  · simp [main_run, dispatch, branchRun, h1]
  · by_cases h2 : args.dependencies = some "script"
    · simp [main_run, dispatch, branchRun, h1, h2]
    · by_cases h3 : truthy args.configs = true
      · simp [main_run, dispatch, branchRun, h1, h2, h3]
      · by_cases h4 : truthy args.install_systemd_timer = true
        · simp [main_run, dispatch, branchRun, h1, h2, h3, h4]
        · by_cases h5 :
            (args.status || args.enable_and_start || args.disable_and_stop || args.logs) = true
          · simp [main_run, dispatch, branchRun, h1, h2, h3, h4, h5]
          · by_cases h6 : truthy args.run_arg = true
            · simp [main_run, dispatch, branchRun, h1, h2, h3, h4, h5, h6]
            · by_cases h7 : truthy args.dry_run_arg = true
              · simp [main_run, dispatch, branchRun, h1, h2, h3, h4, h5, h6, h7]
              · simp [main_run, dispatch, branchRun, h1, h2, h3, h4, h5, h6, h7]

/-! Claim theorems. -/

/-- C5: OS detection with an explicit family selection (`arch`/`ubuntu`)
returns that selection unchanged, independent of the system-identification
file; under `auto` it searches the lowercased file content for the
`arch linux` marker first and the `ubuntu` marker second, returning the
first match and otherwise `unknown`; a missing file yields `unknown` (the
function is total, so no exception escapes). -/
theorem detect_os_family_selection (osr osr' : Option String) (content : String) :
    detect_os "arch" osr = "arch" ∧
    detect_os "ubuntu" osr = "ubuntu" ∧
    detect_os "arch" osr = detect_os "arch" osr' ∧
    detect_os "ubuntu" osr = detect_os "ubuntu" osr' ∧
    (containsSub (lowerStr content) "arch linux" = true →
      detect_os "auto" (some content) = "arch") ∧
    (containsSub (lowerStr content) "arch linux" = false →
      containsSub (lowerStr content) "ubuntu" = true →
      detect_os "auto" (some content) = "ubuntu") ∧
    (containsSub (lowerStr content) "arch linux" = false →
      containsSub (lowerStr content) "ubuntu" = false →
      detect_os "auto" (some content) = "unknown") ∧
    detect_os "auto" none = "unknown" := by
  refine ⟨rfl, rfl, rfl, rfl, fun h1 => ?_, fun h1 h2 => ?_, fun h1 h2 => ?_, rfl⟩ <;>
    simp [detect_os, h1]
  · simp [h2]
  · simp [h2]

/-- Witness for `detect_os_family_selection`: a content carrying both the
`Arch Linux` and the `ubuntu` markers detects as `arch` under `auto`, and an
explicit `arch` selection holds with the file absent. -/
theorem detect_os_family_selection_witness :
    detect_os "arch" none = "arch" ∧ detect_os "auto" (some osReleaseBoth) = "arch" := by
  have h := detect_os_family_selection none (some "x") osReleaseBoth
  exact ⟨h.1, h.2.2.2.2.1 (by decide)⟩

/-- C6: in dry-run mode the Runner emits only print events and spawns no
process, for every target; a target that is neither a directory nor a file
is passed to the shell as an opaque command exactly in non-dry-run mode,
while dry-run prints only the intent line for it. -/
theorem runner_dry_run_frame (fs : FS) (verbose : Bool) (target : String) :
    hasSpawn (run_commands fs verbose target true) = false ∧
    (fs.isDir target = false → fs.isFile target = false →
      run_commands fs verbose target false = [Event.spawnShell target] ∧
      run_commands fs verbose target true =
        [Event.print ("[DRYRUN] Would run command: " ++ target)]) := by
  refine ⟨run_commands_dry_no_spawn fs verbose target, fun h1 h2 => ?_⟩
  constructor <;> simp [run_commands, h1, h2]

/-- Witness for `runner_dry_run_frame`: on an empty filesystem the target
`echo hello` is shell-executed in run mode and only announced in dry-run. -/
theorem runner_dry_run_frame_witness :
    run_commands fsEmpty false "echo hello" false = [Event.spawnShell "echo hello"] ∧
    run_commands fsEmpty false "echo hello" true =
      [Event.print "[DRYRUN] Would run command: echo hello"] := by
  have h := (runner_dry_run_frame fsEmpty false "echo hello").2 rfl rfl
  exact ⟨h.1, h.2⟩

/-- C7: on a directory whose three entries are an executable regular file
`a`, a non-executable regular file `b` and a sub-directory `c`, the Runner
spawns exactly one process, the executable entry; in dry-run mode it spawns
nothing; the entries are processed in sorted (code-point lexicographic)
order; and the trace does not depend on the order `listdir` returned the
entries in. -/
theorem runner_directory_behaviour (fs : FS) (verbose : Bool) (dir a b c : String)
    (l : List String)
    (hdir : fs.isDir dir = true) (hl : fs.listdir dir = l) (hperm : l.Perm [a, b, c])
    (haf : fs.isFile (joinPath dir a) = true) (hax : fs.execOwner (joinPath dir a) = true)
    (hbf : fs.isFile (joinPath dir b) = true) (hbx : fs.execOwner (joinPath dir b) = false)
    (hcf : fs.isFile (joinPath dir c) = false) :
    spawnedArgvs (run_commands fs verbose dir false) = [[joinPath dir a]] ∧
    hasSpawn (run_commands fs verbose dir true) = false ∧
    List.Sorted strleP (sortStrings l) ∧
    (∀ fs' : FS, fs'.isDir = fs.isDir → fs'.isFile = fs.isFile →
      fs'.execOwner = fs.execOwner → (fs'.listdir dir).Perm (fs.listdir dir) →
      ∀ dry, run_commands fs' verbose dir dry = run_commands fs verbose dir dry) := by
  refine ⟨?_, run_commands_dry_no_spawn fs verbose dir, sortStrings_sorted l, ?_⟩
  · rw [spawnedArgvs_run_dir fs verbose dir hdir, hl]
    have hpa : (fs.isFile (joinPath dir a) && is_executable_file fs (joinPath dir a)) = true := by
      simp [is_executable_file, haf, hax]
    have hpb : (fs.isFile (joinPath dir b) && is_executable_file fs (joinPath dir b)) = false := by
      simp [is_executable_file, hbf, hbx]
    have hpc : (fs.isFile (joinPath dir c) && is_executable_file fs (joinPath dir c)) = false := by
      simp [hcf]
    have hpm : ((sortStrings l).filter
        (fun i => fs.isFile (joinPath dir i) && is_executable_file fs (joinPath dir i))).Perm
        ([a, b, c].filter
          (fun i => fs.isFile (joinPath dir i) && is_executable_file fs (joinPath dir i))) :=
      List.Perm.filter _ ((sortStrings_perm l).trans hperm)
    have hfil : [a, b, c].filter
        (fun i => fs.isFile (joinPath dir i) && is_executable_file fs (joinPath dir i)) = [a] := by
      simp [List.filter_cons, hpa, hpb, hpc]
    rw [hfil] at hpm
    rw [List.perm_singleton.mp hpm]
    rfl
  · intro fs' hD hF hX hL dry
    have hstep : dirEntryStep fs' verbose dir dry = dirEntryStep fs verbose dir dry := by
      funext item
      simp [dirEntryStep, is_executable_file, hF, hX]
    simp only [run_commands, hD, hdir, if_true]
    rw [sortStrings_eq_of_perm hL, hstep]

/-- Witness for `runner_directory_behaviour`: the concrete directory `/d`
with entries listed as `b, a, c`, of which only `/d/a` is executable. -/
theorem runner_directory_behaviour_witness :
    spawnedArgvs (run_commands fsDirW false "/d" false) = [["/d/a"]] ∧
    hasSpawn (run_commands fsDirW false "/d" true) = false := by
  have h := runner_directory_behaviour fsDirW false "/d" "a" "b" "c" ["b", "a", "c"]
    rfl rfl (by decide) rfl rfl rfl rfl rfl
  exact ⟨h.1, h.2.1⟩

theorem service_path_ne_timer_path (home : String) :
    service_file_path home ≠ timer_file_path home := by
  intro h
  have hlen := congrArg (fun s => s.data.length) h
  simp only [service_file_path, timer_file_path, joinPath, String.data_append,
    List.length_append, List.length_cons, List.length_nil] at hlen
  omega

/-- C4: `configs create` with run-arg `/tmp/x`, OnCalendar `09:00:00` and
Persistent `false` produces a timer file holding the literal lines
`OnCalendar=09:00:00` and `Persistent=false`, and a service file whose
ExecStart line carries `/tmp/x` in double quotes; both files are written
with these lines joined by newlines; an unset Persistent defaults to
`true`, any value other than `true`/`false` is silently coerced to `true`,
and an unset OnCalendar defaults to `*-*-* 14:00:00`. -/
theorem create_unit_file_contents (home script_path : String) (args : Args)
    (files : String → Option String) :
    (args.OnCalendar = some "09:00:00" →
      "OnCalendar=09:00:00" ∈ timer_lines script_path args) ∧
    (args.Persistent = some "false" →
      "Persistent=false" ∈ timer_lines script_path args) ∧
    (args.run_arg = some "/tmp/x" →
      ("ExecStart=/usr/bin/env python3 " ++ script_path ++ " --run \"" ++ "/tmp/x" ++ "\"")
          ∈ service_lines script_path args ∧
      ∃ pre suf,
        ("ExecStart=/usr/bin/env python3 " ++ script_path ++ " --run \"" ++ "/tmp/x" ++ "\"")
          = pre ++ "\"/tmp/x\"" ++ suf) ∧
    ((create_service_and_timer home script_path args files).2 (timer_file_path home) =
      some (String.intercalate "\n" (timer_lines script_path args))) ∧
    ((create_service_and_timer home script_path args files).2 (service_file_path home) =
      some (String.intercalate "\n" (service_lines script_path args))) ∧
    (args.Persistent = none → "Persistent=true" ∈ timer_lines script_path args) ∧
    (∀ p, args.Persistent = some p → p ≠ "true" → p ≠ "false" →
      "Persistent=true" ∈ timer_lines script_path args) ∧
    (args.OnCalendar = none →
      "OnCalendar=*-*-* 14:00:00" ∈ timer_lines script_path args) := by
  refine ⟨fun h => ?_, fun h => ?_, fun h => ⟨?_, ?_⟩, ?_, ?_, fun h => ?_,
    fun p hp hp1 hp2 => ?_, fun h => ?_⟩
  · simp [timer_lines, timer_content, on_calendar_of, orDefault, truthy, h]
  · simp [timer_lines, timer_content, persistent_value, h]
  · simp [service_lines, service_content, pyStr, h]
  · refine ⟨"ExecStart=/usr/bin/env python3 " ++ script_path ++ " --run ", "", ?_⟩
    rw [String.append_empty, String.append_assoc, String.append_assoc, String.append_assoc,
      String.append_assoc]
    rfl
  · simp [create_service_and_timer]
  · simp [create_service_and_timer, service_path_ne_timer_path home]
  · simp [timer_lines, timer_content, persistent_value, h]
  · simp [timer_lines, timer_content, persistent_value, hp, hp1, hp2]
  · simp [timer_lines, timer_content, on_calendar_of, orDefault, truthy, h]

/-- Witness for `create_unit_file_contents` at the concrete invocation
`--configs create --run-arg /tmp/x --OnCalendar 09:00:00 --Persistent
false`. -/
theorem create_unit_file_contents_witness :
    "OnCalendar=09:00:00" ∈ timer_lines "/opt/tool.py" argsCreateFull ∧
    "Persistent=false" ∈ timer_lines "/opt/tool.py" argsCreateFull ∧
    ("ExecStart=/usr/bin/env python3 " ++ "/opt/tool.py" ++ " --run \"" ++ "/tmp/x" ++ "\"")
      ∈ service_lines "/opt/tool.py" argsCreateFull := by
  have h := create_unit_file_contents "/home/u" "/opt/tool.py" argsCreateFull (fun _ => none)
  exact ⟨h.1 rfl, h.2.1 rfl, (h.2.2.1 rfl).1⟩

/-- C3: `configs create` without a truthy run-arg prints the error line,
exits with status 1 and leaves the file store untouched, both at the
handler and at the dispatcher level; and a non-zero exit of the dispatcher
happens only in exactly this situation. -/
theorem configs_create_requires_run_arg (env : Env) (args : Args) :
    (args.configs = some "create" → truthy args.run_arg = false →
      handle_configs env.home env.script_path env.editorVar env.which args env.files =
        ([Event.print "Error: --configs create requires --run-arg"], env.files, some 1)) ∧
    (args.dependencies = none → args.configs = some "create" → truthy args.run_arg = false →
      main_run env args =
        (verbosePre env args ++ [Event.print "Error: --configs create requires --run-arg"],
         env.files, 1)) ∧
    ((main_run env args).2.2 ≠ 0 →
      args.configs = some "create" ∧ truthy args.run_arg = false) := by
  refine ⟨fun h1 h2 => ?_, fun h0 h1 h2 => ?_, fun h => ?_⟩
  · simp [handle_configs, h1, h2]
  · have hcfg : truthy (some "create") = true := rfl
    simp [main_run, h0, h1, h2, hcfg, handle_configs]
  · by_cases h1 : args.dependencies = some "check"
    · simp [main_run, h1] at h
    · by_cases h2 : args.dependencies = some "script"
      · simp [main_run, h1, h2] at h
      · by_cases h3 : truthy args.configs = true
        · simp only [main_run, if_neg h1, if_neg h2, if_pos h3] at h
          have hne : (handle_configs env.home env.script_path env.editorVar env.which
              args env.files).2.2 ≠ none := by
            intro hn
            rw [hn] at h
            exact h rfl
          exact handle_configs_exit_cases env.home env.script_path env.editorVar env.which
            args env.files hne
        · by_cases h4 : truthy args.install_systemd_timer = true
          · simp [main_run, h1, h2, h3, h4] at h
          · by_cases h5 : (args.status || args.enable_and_start ||
                args.disable_and_stop || args.logs) = true
            · simp [main_run, h1, h2, h3, h4, h5] at h
            · by_cases h6 : truthy args.run_arg = true
              · simp [main_run, h1, h2, h3, h4, h5, h6] at h
              · by_cases h7 : truthy args.dry_run_arg = true
                · simp [main_run, h1, h2, h3, h4, h5, h6, h7] at h
                · simp [main_run, h1, h2, h3, h4, h5, h6, h7] at h

/-- Witness for `configs_create_requires_run_arg`: the invocation
`--configs create` with no run-arg at all, in the baseline environment. -/
theorem configs_create_requires_run_arg_witness :
    main_run envBase argsCreateNoArg =
      (verbosePre envBase argsCreateNoArg ++
        [Event.print "Error: --configs create requires --run-arg"],
       envBase.files, 1) :=
  (configs_create_requires_run_arg envBase argsCreateNoArg).2.1 rfl rfl rfl

/-- C9: `configs create` with a run-arg equal to the empty string behaves
exactly as with the run-arg omitted: string truthiness makes the presence
test fail, the error line is printed, the handler exits with status 1 and
no file is written. -/
theorem configs_create_empty_run_arg (home sp ev : String) (which : String → Option String)
    (args : Args) (files : String → Option String)
    (hc : args.configs = some "create") (hr : args.run_arg = some "") :
    handle_configs home sp ev which args files =
      handle_configs home sp ev which { args with run_arg := none } files ∧
    handle_configs home sp ev which args files =
      ([Event.print "Error: --configs create requires --run-arg"], files, some 1) := by
  have ht : truthy args.run_arg = false := by rw [hr]; rfl
  have htn : truthy (none : Option String) = false := rfl
  constructor
  · simp [handle_configs, hc, ht, htn]
  · simp [handle_configs, hc, ht]

/-- Witness for `configs_create_empty_run_arg`: the concrete invocation
`--configs create --run-arg ""`. -/
theorem configs_create_empty_run_arg_witness :
    handle_configs "/home/u" "/opt/tool.py" "" whichNone argsCreateEmptyArg (fun _ => none) =
      ([Event.print "Error: --configs create requires --run-arg"],
       (fun _ => (none : Option String)), some 1) :=
  (configs_create_empty_run_arg "/home/u" "/opt/tool.py" "" whichNone argsCreateEmptyArg
    (fun _ => none) rfl rfl).2

theorem timer_actions_spawn_count (args : Args) :
    (spawnedArgvs (handle_systemd_timer_actions args)).length ≤ 1 ∧
    ((args.status || args.enable_and_start || args.disable_and_stop || args.logs) = true →
      (spawnedArgvs (handle_systemd_timer_actions args)).length = 1) := by
  cases hs : args.status
  · cases he : args.enable_and_start
    · cases hd : args.disable_and_stop
      · cases hl : args.logs
        · simp [handle_systemd_timer_actions, hs, he, hd, hl, spawnedArgvs]
        · simp [handle_systemd_timer_actions, hs, he, hd, hl, spawnedArgvs]
      · simp [handle_systemd_timer_actions, hs, he, hd, spawnedArgvs]
    · simp [handle_systemd_timer_actions, hs, he, spawnedArgvs]
  · simp [handle_systemd_timer_actions, hs, spawnedArgvs]

/-- C2: the dispatcher executes exactly one top-level branch, the one the
fixed priority chain selects (dependencies, then configs, then
install-systemd-timer, then the scheduler intents, then run/dry-run, then
the no-op with its optional verbose notice); when a higher-priority branch
is supplied together with run or dry-run, the run/dry-run flags are
silently ignored: the trace is exactly the verbose preamble plus the
selected handler's own output with no warning, clearing the dry-run flag
never changes the result, and clearing the run flag changes nothing
whenever no configs branch is selected (under `--configs create` the
`run_arg` attribute is also the store of `--run-arg`, which that handler
reads). -/
theorem dispatch_priority_silent_ignore (env : Env) (args : Args) :
    main_run env args =
      (verbosePre env args ++ (branchRun env args (dispatch args)).1,
       (branchRun env args (dispatch args)).2) ∧
    (higherPriority args →
      dispatch args ≠ Branch.runReal ∧ dispatch args ≠ Branch.runDry ∧
      main_run env args = main_run env { args with dry_run_arg := none } ∧
      (truthy args.configs = false →
        main_run env args = main_run env { args with run_arg := none })) := by
  refine ⟨main_run_eq_branch env args, fun hh => ?_⟩
  obtain ⟨o, ra, da, v, dep, cfg, inst, per, oc, de, st, en, di, lo⟩ := args
  by_cases h1 : dep = some "check"
  · exact ⟨by simp [dispatch, h1], by simp [dispatch, h1],
      by simp [main_run, verbosePre, h1], fun _ => by simp [main_run, verbosePre, h1]⟩
  · by_cases h2 : dep = some "script"
    · exact ⟨by simp [dispatch, h1, h2], by simp [dispatch, h1, h2],
        by simp [main_run, verbosePre, h1, h2], fun _ => by simp [main_run, verbosePre, h1, h2]⟩
    · by_cases h3 : truthy cfg = true
      · refine ⟨by simp [dispatch, h1, h2, h3], by simp [dispatch, h1, h2, h3], ?_,
          fun hcf => ?_⟩
        · simp only [main_run, verbosePre, if_neg h1, if_neg h2, if_pos h3]
          rfl
        · rw [hcf] at h3
          exact absurd h3 (by decide)
      · by_cases h4 : truthy inst = true
        · exact ⟨by simp [dispatch, h1, h2, h3, h4], by simp [dispatch, h1, h2, h3, h4],
            by simp [main_run, verbosePre, h1, h2, h3, h4]; rfl,
            fun _ => by simp [main_run, verbosePre, h1, h2, h3, h4]; rfl⟩
        · by_cases h5 : (st || en || di || lo) = true
          · exact ⟨by simp [dispatch, h1, h2, h3, h4, h5],
              by simp [dispatch, h1, h2, h3, h4, h5],
              by simp [main_run, verbosePre, h1, h2, h3, h4, h5]; rfl,
              fun _ => by simp [main_run, verbosePre, h1, h2, h3, h4, h5]; rfl⟩
          · rcases hh with h | h | h | h | h
            · exact absurd h h1
            · exact absurd h h2
            · exact absurd h h3
            · exact absurd h h4
            · exact absurd h h5

/-- Witness for `dispatch_priority_silent_ignore`: `--dependencies check`
supplied together with `--run /tmp/x`; clearing either run flag leaves the
whole result unchanged. -/
theorem dispatch_priority_silent_ignore_witness :
    main_run envBase argsDepsRun = main_run envBase { argsDepsRun with dry_run_arg := none } ∧
    main_run envBase argsDepsRun = main_run envBase { argsDepsRun with run_arg := none } := by
  have h := (dispatch_priority_silent_ignore envBase argsDepsRun).2 (Or.inl rfl)
  exact ⟨h.2.2.1, h.2.2.2 rfl⟩

/-- C1 (counterexample): the invocation supplying both `--status` and
`--logs` sets two scheduler intents at once yet is not rejected by the
parser's mutually exclusive argument grouping; it is accepted and the
bridge executes the status command. -/
theorem intents_grouping_counterexample :
    flagsStatusLogs.status = true ∧ flagsStatusLogs.logs = true ∧
    parserRejects flagsStatusLogs = false ∧
    handle_systemd_timer_actions argsStatusLogs =
      [Event.print "Running: systemctl --user status daily_by_hostname.timer",
       Event.spawnArgv status_cmd] := by
  refine ⟨rfl, rfl, rfl, ?_⟩
  rfl

/-- C1 (amended): the only mutually exclusive argument group holds
`--run`/`--dry-run`, so any invocation not supplying both of those is
accepted — in particular one setting two or more of the four scheduler
intents; the bridge then executes at most one control command, exactly one
when any intent is set. -/
theorem intents_first_match_wins (s : SuppliedFlags) (args : Args)
    (h : ¬(s.run = true ∧ s.dry_run = true)) :
    parserRejects s = false ∧
    (spawnedArgvs (handle_systemd_timer_actions args)).length ≤ 1 ∧
    ((args.status || args.enable_and_start || args.disable_and_stop || args.logs) = true →
      (spawnedArgvs (handle_systemd_timer_actions args)).length = 1) := by
  refine ⟨?_, (timer_actions_spawn_count args).1, (timer_actions_spawn_count args).2⟩
  cases hr : s.run
  · simp [parserRejects, hr]
  · cases hd : s.dry_run
    · simp [parserRejects, hr, hd]
    · exact absurd ⟨hr, hd⟩ h

/-- Witness for `intents_first_match_wins`: the `--status --logs`
invocation is accepted and runs exactly one command. -/
theorem intents_first_match_wins_witness :
    parserRejects flagsStatusLogs = false ∧
    (spawnedArgvs (handle_systemd_timer_actions argsStatusLogs)).length = 1 := by
  have h := intents_first_match_wins flagsStatusLogs argsStatusLogs (by decide)
  exact ⟨h.1, h.2.2 rfl⟩

/-- C10: with several intent flags set, the Scheduler Control Bridge runs
exactly one external command, chosen by the fixed priority status over
enable_and_start over disable_and_stop over logs, silently ignoring the
other set flags; with no intent set it runs no command. -/
theorem timer_actions_priority (args : Args) :
    (args.status = true →
      handle_systemd_timer_actions args =
        [Event.print "Running: systemctl --user status daily_by_hostname.timer",
         Event.spawnArgv status_cmd]) ∧
    (args.status = false → args.enable_and_start = true →
      handle_systemd_timer_actions args =
        [Event.print "Running: systemctl --user enable --now daily_by_hostname.timer",
         Event.spawnArgv enable_cmd]) ∧
    (args.status = false → args.enable_and_start = false → args.disable_and_stop = true →
      handle_systemd_timer_actions args =
        [Event.print "Running: systemctl --user disable --now daily_by_hostname.timer",
         Event.spawnArgv disable_cmd]) ∧
    (args.status = false → args.enable_and_start = false → args.disable_and_stop = false →
      args.logs = true →
      handle_systemd_timer_actions args =
        [Event.print "Running: journalctl --user-unit daily_by_hostname.service --since today",
         Event.spawnArgv logs_cmd]) ∧
    (args.status = false → args.enable_and_start = false → args.disable_and_stop = false →
      args.logs = false → handle_systemd_timer_actions args = []) ∧
    ((args.status || args.enable_and_start || args.disable_and_stop || args.logs) = true →
      (spawnedArgvs (handle_systemd_timer_actions args)).length = 1) := by
  refine ⟨fun h1 => ?_, fun h1 h2 => ?_, fun h1 h2 h3 => ?_, fun h1 h2 h3 h4 => ?_,
    fun h1 h2 h3 h4 => ?_, (timer_actions_spawn_count args).2⟩
  · simp [handle_systemd_timer_actions, h1]
    rfl
  · simp [handle_systemd_timer_actions, h1, h2]
    rfl
  · simp [handle_systemd_timer_actions, h1, h2, h3]
    rfl
  · simp [handle_systemd_timer_actions, h1, h2, h3, h4]
    rfl
  · simp [handle_systemd_timer_actions, h1, h2, h3, h4]

/-- Witness for `timer_actions_priority`: with `--enable_and_start --logs`
both set, the enable command alone is executed. -/
theorem timer_actions_priority_witness :
    handle_systemd_timer_actions argsEnableLogs =
      [Event.print "Running: systemctl --user enable --now daily_by_hostname.timer",
       Event.spawnArgv enable_cmd] :=
  (timer_actions_priority argsEnableLogs).2.1 rfl rfl

/-- C8: the dependency `suggest` action recomputes the OS family by
auto-detection, ignoring the `--os` selection: for a fixed
system-identification file and search-path resolution the printed
suggestions are identical for any two `--os` values; the package-manager
command is chosen from the auto-detected family (arch, ubuntu, or a
placeholder), and when nothing is missing a confirmation is printed and
the action stops. -/
theorem suggest_ignores_os_override (env : Env) (args : Args) (o o' : String)
    (h : args.dependencies = some "script") :
    ((main_run env { args with os := o }).1).drop
        (verbosePre env { args with os := o }).length =
      suggest_install_script env.os_release env.which args.verbose ∧
    ((main_run env { args with os := o }).1).drop
        (verbosePre env { args with os := o }).length =
      ((main_run env { args with os := o' }).1).drop
        (verbosePre env { args with os := o' }).length ∧
    (missing_commands env.which = [] →
      suggest_install_script env.os_release env.which args.verbose =
        [Event.print "All essential commands appear to be installed."]) ∧
    (missing_commands env.which ≠ [] → detect_os "auto" env.os_release = "arch" →
      suggest_install_script env.os_release env.which args.verbose =
        [Event.print "Suggested installation commands (based on detected OS):"] ++
        ((missing_commands env.which).map fun cmd =>
          Event.print ("  sudo pacman -S " ++ cmd)) ++
        (if args.verbose then
          [Event.print "Suggested install script generation completed."] else [])) ∧
    (missing_commands env.which ≠ [] → detect_os "auto" env.os_release = "ubuntu" →
      suggest_install_script env.os_release env.which args.verbose =
        [Event.print "Suggested installation commands (based on detected OS):"] ++
        ((missing_commands env.which).map fun cmd =>
          Event.print ("  sudo apt-get install " ++ cmd)) ++
        (if args.verbose then
          [Event.print "Suggested install script generation completed."] else [])) ∧
    (missing_commands env.which ≠ [] → detect_os "auto" env.os_release ≠ "arch" →
      detect_os "auto" env.os_release ≠ "ubuntu" →
      suggest_install_script env.os_release env.which args.verbose =
        [Event.print "Suggested installation commands (based on detected OS):"] ++
        ((missing_commands env.which).map fun cmd =>
          Event.print ("  <your_package_manager_install_command> " ++ cmd)) ++
        (if args.verbose then
          [Event.print "Suggested install script generation completed."] else [])) := by
  have key : ∀ x : String,
      ((main_run env { args with os := x }).1).drop
          (verbosePre env { args with os := x }).length =
        suggest_install_script env.os_release env.which args.verbose := by
    intro x
    have hd : dispatch { args with os := x } = Branch.depsScript := by
      simp [dispatch, h]
    rw [main_run_eq_branch env { args with os := x }, hd]
    simp only [branchRun]
    exact List.drop_left _ _
  refine ⟨key o, (key o).trans (key o').symm, fun hm => ?_, fun hm hdet => ?_,
    fun hm hdet => ?_, fun hm hd1 hd2 => ?_⟩
  · simp [suggest_install_script, hm]
  · simp only [suggest_install_script]
    rw [if_neg hm, hdet, if_pos rfl]
    rfl
  · simp only [suggest_install_script]
    rw [if_neg hm, hdet, if_neg (by decide), if_pos rfl]
    rfl
  · simp only [suggest_install_script]
    rw [if_neg hm, if_neg hd1, if_neg hd2]
    rfl

/-- Witness for `suggest_ignores_os_override`: with every dependency
resolvable the suggest action prints the confirmation line only. -/
theorem suggest_ignores_os_override_witness :
    suggest_install_script envAllDeps.os_release envAllDeps.which false =
      [Event.print "All essential commands appear to be installed."] := by
  have h := suggest_ignores_os_override envAllDeps argsDepsScript "arch" "ubuntu" rfl
  exact h.2.2.1 rfl

end SystemdTimerTool
